import Mathlib

/-
Verification development for a PPO reinforcement-learning repository.

Embedded source files:
  - `4.PPO-discrete/PPO_discrete_main.py` : the training loop `main` and
    `evaluate_policy`, over rational arithmetic with a parametric square root
    (floating point idealised as exact arithmetic).
  - `5.PPO-continuous/nn/cnn_actor.py` : the `Stochastic_Actor` mixin
    (`_get_dist_params`, `stochastic_forward`), over the reals, with the
    neural-network layers abstracted as arbitrary functions and the random
    draw of `dist.rsample()` supplied as an oracle input.

Collaborator classes imported by the training loop but absent from the
sources (`Normalization`, `RewardScaling`, `ReplayBuffer.store`) are
modelled from the specification document; each such definition carries a
doc comment saying so.
-/

namespace PPOSpec

/-! ## Running statistics (modelled from the spec) -/

/-- Modelled from the spec: one incremental (Welford-style) update of a
scalar running-statistics triple `(count, mean, var)` with a new sample `x`:
`count ← count+1`, `delta ← x-mean`, `mean ← mean+delta/count`, and the
variance updated from `delta` and the new mean by the standard
parallel-incremental formula (`M2 ← M2 + delta*(x-mean')` with `var = M2/count`).
The `Normalization` and `RewardScaling` classes are not in the sources. -/
def welfordStep (count mean var x : ℚ) : ℚ × ℚ × ℚ :=
  let count' := count + 1
  let delta := x - mean
  let mean' := mean + delta / count'
  let var' := (var * count + delta * (x - mean')) / count'
  (count', mean', var')

/-- Modelled from the spec: the state of the `Normalization` running
normalizer — per-dimension running mean and variance plus a sample count. -/
structure NormState (n : ℕ) where
  count : ℚ
  mean : Fin n → ℚ
  var : Fin n → ℚ

/-- Modelled from the spec: incorporate a vector into the running
statistics, componentwise by `welfordStep`. -/
def normUpdate {n : ℕ} (st : NormState n) (x : Fin n → ℚ) : NormState n :=
  { count := st.count + 1
    mean := fun i => (welfordStep st.count (st.mean i) (st.var i) (x i)).2.1
    var := fun i => (welfordStep st.count (st.mean i) (st.var i) (x i)).2.2 }

/-- Modelled from the spec: `Normalization.__call__(x, update)`. When
`update = true` the sample is first incorporated and the post-update
statistics are used; when `update = false` the current statistics are used
read-only. Normalisation subtracts the mean and divides by
`sqrt(var) + 1e-8` (`sqrtFn` abstracts the square root). -/
def normApply {n : ℕ} (sqrtFn : ℚ → ℚ) (st : NormState n) (x : Fin n → ℚ)
    (update : Bool) : (Fin n → ℚ) × NormState n :=
  let st' := if update then normUpdate st x else st
  (fun i => (x i - st'.mean i) / (sqrtFn (st'.var i) + 1 / 100000000), st')

/-- Modelled from the spec: the state of `RewardScaling` — the per-episode
discounted return accumulator `R` plus scalar running statistics over `R`. -/
structure RSState where
  R : ℚ
  count : ℚ
  mean : ℚ
  var : ℚ

/-- Modelled from the spec: `RewardScaling.reset()` zeroes the per-episode
return accumulator `R` only; the running statistics persist. -/
def rsReset (st : RSState) : RSState := { st with R := 0 }

/-- Modelled from the spec: `RewardScaling.__call__(r)` — accumulate
`R ← gamma*R + r`, update the running statistics with the new `R`, and
return `r / (sqrt(running_var) + 1e-8)`. -/
def rsScale (sqrtFn : ℚ → ℚ) (gamma : ℚ) (st : RSState) (r : ℚ) : ℚ × RSState :=
  let R' := gamma * st.R + r
  let w := welfordStep st.count st.mean st.var R'
  (r / (sqrtFn w.2.2 + 1 / 100000000), ⟨R', w.1, w.2.1, w.2.2⟩)

/-! ## Training-loop pieces (`PPO_discrete_main.py`, function `main`) -/

/-- Tag recording which reward transformation a training step applied. -/
inductive RTag where
  | rnorm
  | rscale
  | idTag
deriving DecidableEq

/-- Lines 103-106 of `PPO_discrete_main.py`:
`if use_reward_norm: r = reward_norm(r) elif use_reward_scaling: r = reward_scaling(r)`.
Returns the (possibly transformed) reward, the two transformation states,
and a tag recording which branch ran. -/
def transformReward (useRN useRS : Bool) (sqrtFn : ℚ → ℚ) (gamma : ℚ)
    (rn : NormState 1) (rs : RSState) (r : ℚ) : ℚ × NormState 1 × RSState × RTag :=
  if useRN then
    let ap := normApply sqrtFn rn (fun _ => r) true
    (ap.1 0, ap.2, rs, RTag.rnorm)
  else if useRS then
    let sc := rsScale sqrtFn gamma rs r
    (sc.1, rn, sc.2, RTag.rscale)
  else (r, rn, rs, RTag.idTag)

/-- Lines 110-116 of `PPO_discrete_main.py`:
`if done and episode_steps != args.max_episode_steps: dw = True else: dw = False`. -/
def computeDw (done : Bool) (episodeSteps maxEpisodeSteps : ℕ) : Bool :=
  if done = true ∧ episodeSteps ≠ maxEpisodeSteps then true else false

/-- The buffer-count bookkeeping of one training step, on a pair
`(count, updates)` where `updates` counts `agent.update` calls.
`replay_buffer.store` increments the count (modelled from the spec: the
`ReplayBuffer` class is not in the sources, the spec says `store` appends);
then lines 123-135: `if replay_buffer.count == args.batch_size:` run
`agent.update` and set `replay_buffer.count = 0`. -/
def storeAndMaybeUpdate (batch : ℕ) (st : ℕ × ℕ) : ℕ × ℕ :=
  let c := st.1 + 1
  if c = batch then (0, st.2 + 1) else (c, st.2)

/-- The agent interface used by the training loop: `choose_action` returns
an action and its log-probability, `evaluate` a deterministic action. -/
structure AgentIface (Obs Act : Type) where
  choose_action : Obs → Act × ℚ
  evaluate : Obs → Act

/-- A stored transition, in the argument order of
`replay_buffer.store(s, a, a_logprob, r, s_, dw, done)` (line 118). -/
structure Transition (Obs Act : Type) where
  s : Obs
  a : Act
  a_logprob : ℚ
  r : ℚ
  s_next : Obs
  dw : Bool
  done : Bool

/-- The mutable state threaded through one iteration of the inner
`while not done` loop of `main`. -/
structure LoopState (n : ℕ) where
  s : Fin n → ℚ
  episodeSteps : ℕ
  episodeReward : ℚ
  totalSteps : ℕ
  normSt : NormState n
  rnSt : NormState 1
  rsSt : RSState
  count : ℕ
  updates : ℕ

/-- One iteration of the inner training loop (lines 96-135 of
`PPO_discrete_main.py`): increment `episode_steps`, sample an action via
`agent.choose_action`, step the environment, normalize the next state
(`update` defaulting to true), transform the reward, compute `dw`, store
the transition, and run the buffer-count/update bookkeeping. Returns the
new loop state, the stored transition, and the `done` flag. -/
def trainBody {n : ℕ} {Act : Type} (useSN useRN useRS : Bool) (sqrtFn : ℚ → ℚ)
    (gamma : ℚ) (batch maxEpisodeSteps : ℕ) (agent : AgentIface (Fin n → ℚ) Act)
    (envStep : (Fin n → ℚ) → Act → (Fin n → ℚ) × ℚ × Bool)
    (st : LoopState n) : LoopState n × Transition (Fin n → ℚ) Act × Bool :=
  let es := st.episodeSteps + 1
  let ac := agent.choose_action st.s
  let er := envStep st.s ac.1
  let sn := if useSN then normApply sqrtFn st.normSt er.1 true else (er.1, st.normSt)
  let rt := transformReward useRN useRS sqrtFn gamma st.rnSt st.rsSt er.2.1
  let dw := computeDw er.2.2 es maxEpisodeSteps
  let tr : Transition (Fin n → ℚ) Act := ⟨st.s, ac.1, ac.2, rt.1, sn.1, dw, er.2.2⟩
  let cu := storeAndMaybeUpdate batch (st.count, st.updates)
  ({ s := sn.1, episodeSteps := es, episodeReward := st.episodeReward + rt.1,
     totalSteps := st.totalSteps + 1, normSt := sn.2, rnSt := rt.2.1,
     rsSt := rt.2.2.1, count := cu.1, updates := cu.2 }, tr, er.2.2)

/-- Lines 88-96 of `PPO_discrete_main.py`: at the start of each episode,
`if args.use_reward_scaling: reward_scaling.reset()`. -/
def episodeInitRS (useRS : Bool) (st : RSState) : RSState :=
  if useRS then rsReset st else st

/-- Scale a list of per-step rewards in order, threading the
`RewardScaling` state (the successive line-106 calls of one episode). -/
def scaleRewards (sqrtFn : ℚ → ℚ) (gamma : ℚ) : RSState → List ℚ → List ℚ × RSState
  | st, [] => ([], st)
  | st, r :: rest =>
    let sc := rsScale sqrtFn gamma st r
    let tl := scaleRewards sqrtFn gamma sc.2 rest
    (sc.1 :: tl.1, tl.2)

/-- One episode's reward-scaling activity as the training loop performs it:
the episode-start reset (lines 91-92) followed by the per-step scaling
calls (line 106). -/
def runEpisodeRS (useRS : Bool) (sqrtFn : ℚ → ℚ) (gamma : ℚ)
    (st : RSState) (rws : List ℚ) : List ℚ × RSState :=
  scaleRewards sqrtFn gamma (episodeInitRS useRS st) rws

/-! ## Evaluation and checkpointing (`evaluate_policy`, lines 137-160) -/

/-- The inner `while not done` loop of `evaluate_policy` (lines 28-35):
act with the deterministic policy `agent.evaluate`, step the environment,
normalize the next state with `update=False`, and accumulate reward and
length. `fuel` bounds the number of iterations (the Python loop runs until
the environment reports `done`). -/
def evalEpisodeLoop {n : ℕ} {E Act : Type} (useSN : Bool) (sqrtFn : ℚ → ℚ)
    (agent : AgentIface (Fin n → ℚ) Act)
    (envStep : E → Act → (Fin n → ℚ) × ℚ × Bool × E) :
    ℕ → E → (Fin n → ℚ) → ℚ → ℕ → NormState n → ℚ × ℕ × NormState n × E
  | 0, e, _, acc, len, ns => (acc, len, ns, e)
  | fuel + 1, e, s, acc, len, ns =>
    let a := agent.evaluate s
    let step := envStep e a
    let sn := if useSN then normApply sqrtFn ns step.1 false else (step.1, ns)
    if step.2.2.1 then (acc + step.2.1, len + 1, sn.2, step.2.2.2)
    else evalEpisodeLoop useSN sqrtFn agent envStep fuel step.2.2.2 sn.1
      (acc + step.2.1) (len + 1) sn.2

/-- One evaluation episode (lines 22-37 of `PPO_discrete_main.py`):
`s = env.reset()`, normalize with `update=False`, then the episode loop. -/
def evalEpisode {n : ℕ} {E Act : Type} (useSN : Bool) (sqrtFn : ℚ → ℚ)
    (agent : AgentIface (Fin n → ℚ) Act) (envReset : E → (Fin n → ℚ) × E)
    (envStep : E → Act → (Fin n → ℚ) × ℚ × Bool × E) (fuel : ℕ) (e : E)
    (ns : NormState n) : ℚ × ℕ × NormState n × E :=
  let r0 := envReset e
  let sn := if useSN then normApply sqrtFn ns r0.1 false else (r0.1, ns)
  evalEpisodeLoop useSN sqrtFn agent envStep fuel r0.2 sn.1 0 0 sn.2

/-- `evaluate_policy` (lines 17-39): three evaluation episodes
(`epochs = 3`), returning the mean reward, the mean length, the final
normalizer state and the final environment state. -/
def evaluate_policy {n : ℕ} {E Act : Type} (useSN : Bool) (sqrtFn : ℚ → ℚ)
    (agent : AgentIface (Fin n → ℚ) Act) (envReset : E → (Fin n → ℚ) × E)
    (envStep : E → Act → (Fin n → ℚ) × ℚ × Bool × E) (fuel : ℕ) (e : E)
    (ns : NormState n) : ℚ × ℚ × NormState n × E :=
  let e1 := evalEpisode useSN sqrtFn agent envReset envStep fuel e ns
  let e2 := evalEpisode useSN sqrtFn agent envReset envStep fuel e1.2.2.2 e1.2.2.1
  let e3 := evalEpisode useSN sqrtFn agent envReset envStep fuel e2.2.2.2 e2.2.2.1
  ((e1.1 + e2.1 + e3.1) / 3, (((e1.2.1 + e2.2.1 + e3.2.1 : ℕ) : ℚ)) / 3,
   e3.2.2.1, e3.2.2.2)

/-- The persisted agent components: actor parameters, critic parameters,
and both optimizers' internal state (abstract types). -/
structure AgentPersist (A C OA OC : Type) where
  actorParams : A
  criticParams : C
  optActorState : OA
  optCriticState : OC

/-- The checkpoint record written at lines 152-158 of
`PPO_discrete_main.py`, field for field. -/
structure Checkpoint (A C OA OC : Type) where
  total_steps : ℕ
  actor_state_dict : A
  critic_state_dict : C
  optimizer_actor_state_dict : OA
  optimizer_critic_state_dict : OC

/-- The evaluation-interval block (lines 137-160 of `PPO_discrete_main.py`)
given the evaluation `reward` and the running best `maxReward` (`none`
models the initial `float('-inf')`). `if reward >= max_reward:` update the
best and save the actor-only snapshot; then always write the checkpoint.
Returns the new best, the snapshot written (if any), and the checkpoint. -/
def evalIntervalBlock {A C OA OC : Type} (agent : AgentPersist A C OA OC)
    (totalSteps : ℕ) (maxReward : Option ℚ) (reward : ℚ) :
    Option ℚ × Option A × Checkpoint A C OA OC :=
  let save := match maxReward with
    | none => true
    | some m => decide (m ≤ reward)
  let maxReward' := if save then some reward else maxReward
  let snapshot : Option A := if save then some agent.actorParams else none
  (maxReward', snapshot,
   ⟨totalSteps, agent.actorParams, agent.criticParams,
    agent.optActorState, agent.optCriticState⟩)

/-! ## The continuous stochastic actor (`cnn_actor.py`), over ℝ -/

/-- `Stochastic_Actor` (`cnn_actor.py`): the network layers are abstracted
as arbitrary functions. `normalize_state`, `cnn_base` and `_base_forward`
are the feature pipeline; `means` and `log_stds` are the two output heads
(`nn.Linear(latent, action_dim)`); `fixed_std` and `bounded` are the
constructor flags. -/
structure StochasticActor (S X L : Type) (n : ℕ) where
  normalize_state : S → Bool → S
  cnn_base : S → X
  base_forward : X → L
  means : L → Fin n → ℝ
  log_stds : L → Fin n → ℝ
  fixed_std : Option (Fin n → ℝ)
  bounded : Bool

/-- `torch.clamp(x, lo, hi) = min(max(x, lo), hi)`. -/
def clampR (lo hi x : ℝ) : ℝ := min hi (max lo x)

/-- `torch.distributions.Normal(mu, sd).log_prob(x)`:
`-(x-mu)^2/(2 sd^2) - log sd - log sqrt(2 pi)`. -/
noncomputable def gaussLogPdf (mu sd x : ℝ) : ℝ :=
  -((x - mu) ^ 2 / (2 * sd ^ 2)) - Real.log sd - Real.log (Real.sqrt (2 * Real.pi))

/-- `Stochastic_Actor._get_dist_params` (lines 23-37 of `cnn_actor.py`):
run the feature pipeline, take `mu` from the means head, and take the
standard deviation as `torch.clamp(log_stds(x), -2, 1).exp()` when
`fixed_std is None`, else `fixed_std`. -/
noncomputable def get_dist_params {S X L : Type} {n : ℕ}
    (A : StochasticActor S X L n) (state : S) (update : Bool) :
    (Fin n → ℝ) × (Fin n → ℝ) :=
  let x := A.base_forward (A.cnn_base (A.normalize_state state update))
  let mu := A.means x
  let std := match A.fixed_std with
    | none => fun i => Real.exp (clampR (-2) 1 (A.log_stds x i))
    | some s => s
  (mu, std)

/-- `Stochastic_Actor.stochastic_forward` (lines 39-58 of `cnn_actor.py`).
`sample` is the draw of `dist.rsample()`, supplied as an oracle input (it
is only read when `not deterministic or log_probs`). The action is the
(tanh-squashed when bounded) mean if `deterministic`, else the squashed
sample. When `log_probs`, the second component is
`dist.log_prob(sample)` minus (when bounded) the tanh-Jacobian correction
`log((1 - tanh(sample)^2) + 1e-6)`, summed over the action dimensions. -/
noncomputable def stochastic_forward {S X L : Type} {n : ℕ}
    (A : StochasticActor S X L n) (state : S) (sample : Fin n → ℝ)
    (deterministic update log_probs : Bool) : (Fin n → ℝ) × Option ℝ :=
  let p := get_dist_params A state update
  let action :=
    if A.bounded then
      (if deterministic then fun i => Real.tanh (p.1 i)
       else fun i => Real.tanh (sample i))
    else (if deterministic then p.1 else sample)
  if log_probs then
    (action, some (∑ i, (gaussLogPdf (p.1 i) (p.2 i) (sample i) -
      (if A.bounded then Real.log ((1 - Real.tanh (sample i) ^ 2) + 1 / 1000000)
       else 0))))
  else (action, none)

/-- A concrete bounded=false actor over trivial feature types, with
`mu = 0` and `fixed_std = 1`, used to exhibit concrete evaluations. -/
noncomputable def demoActor : StochasticActor Unit Unit Unit 1 :=
  ⟨fun s _ => s, fun _ => (), fun _ => (), fun _ _ => 0, fun _ _ => 0,
   some (fun _ => 1), false⟩

/-! ## Theorems -/

/-- C1: starting from an empty buffer, after any number of stored
transitions the buffer count stays strictly below `batch_size` (so it never
exceeds the capacity at any point of the loop), and the number of
`agent.update` calls `u` satisfies `batch * u + count = steps` — exactly
one update each time the count reaches `batch_size`. Moreover a store that
brings the count to `batch_size` triggers the update and resets the count
to zero, any other store only increments the count, and the training-loop
body performs exactly this bookkeeping on its `count`/`updates` fields. -/
theorem buffer_update_cycle (batch steps : ℕ) (hb : 0 < batch) :
    ((PPOSpec.storeAndMaybeUpdate batch)^[steps] (0, 0)).1 < batch
    ∧ batch * ((PPOSpec.storeAndMaybeUpdate batch)^[steps] (0, 0)).2 +
        ((PPOSpec.storeAndMaybeUpdate batch)^[steps] (0, 0)).1 = steps
    ∧ (∀ c u : ℕ, c + 1 = batch →
        PPOSpec.storeAndMaybeUpdate batch (c, u) = (0, u + 1))
    ∧ (∀ c u : ℕ, c + 1 ≠ batch →
        PPOSpec.storeAndMaybeUpdate batch (c, u) = (c + 1, u))
    ∧ (∀ {m : ℕ} {Act : Type} (useSN useRN useRS : Bool) (sqrtFn : ℚ → ℚ)
        (gamma : ℚ) (maxSteps : ℕ) (agent : PPOSpec.AgentIface (Fin m → ℚ) Act)
        (envStep : (Fin m → ℚ) → Act → (Fin m → ℚ) × ℚ × Bool)
        (st : PPOSpec.LoopState m),
        ((PPOSpec.trainBody useSN useRN useRS sqrtFn gamma batch maxSteps
            agent envStep st).1.count,
         (PPOSpec.trainBody useSN useRN useRS sqrtFn gamma batch maxSteps
            agent envStep st).1.updates)
          = PPOSpec.storeAndMaybeUpdate batch (st.count, st.updates)) := by
  have key : ∀ k : ℕ,
      ((PPOSpec.storeAndMaybeUpdate batch)^[k] (0, 0)).1 < batch
      ∧ batch * ((PPOSpec.storeAndMaybeUpdate batch)^[k] (0, 0)).2 +
          ((PPOSpec.storeAndMaybeUpdate batch)^[k] (0, 0)).1 = k := by
    intro k
    induction k with
    | zero => simpa using hb
    | succ k ih =>
      obtain ⟨h1, h2⟩ := ih
      rw [Function.iterate_succ_apply']
      set p := (PPOSpec.storeAndMaybeUpdate batch)^[k] (0, 0) with hp
      by_cases h : p.1 + 1 = batch
      · have hstep : PPOSpec.storeAndMaybeUpdate batch p = (0, p.2 + 1) := by
          simp [PPOSpec.storeAndMaybeUpdate, h]
        rw [hstep, Nat.mul_succ]
        exact ⟨hb, by linarith⟩
      · have hstep : PPOSpec.storeAndMaybeUpdate batch p = (p.1 + 1, p.2) := by
          simp [PPOSpec.storeAndMaybeUpdate, h]
        rw [hstep]
        exact ⟨by omega, by linarith⟩
  refine ⟨(key steps).1, (key steps).2, ?_, ?_, ?_⟩
  · intro c u h
    simp [PPOSpec.storeAndMaybeUpdate, h]
  · intro c u h
    simp [PPOSpec.storeAndMaybeUpdate, h]
  · intro m Act useSN useRN useRS sqrtFn gamma maxSteps agent envStep st
    rfl

/-- Witness for C1 at `batch_size = 2` after 5 stored transitions. -/
theorem buffer_update_cycle_witness :
    0 < 2
    ∧ (((PPOSpec.storeAndMaybeUpdate 2)^[5] (0, 0)).1 < 2
      ∧ 2 * ((PPOSpec.storeAndMaybeUpdate 2)^[5] (0, 0)).2 +
          ((PPOSpec.storeAndMaybeUpdate 2)^[5] (0, 0)).1 = 5
      ∧ (∀ c u : ℕ, c + 1 = 2 →
          PPOSpec.storeAndMaybeUpdate 2 (c, u) = (0, u + 1))
      ∧ (∀ c u : ℕ, c + 1 ≠ 2 →
          PPOSpec.storeAndMaybeUpdate 2 (c, u) = (c + 1, u))
      ∧ (∀ {m : ℕ} {Act : Type} (useSN useRN useRS : Bool) (sqrtFn : ℚ → ℚ)
          (gamma : ℚ) (maxSteps : ℕ) (agent : PPOSpec.AgentIface (Fin m → ℚ) Act)
          (envStep : (Fin m → ℚ) → Act → (Fin m → ℚ) × ℚ × Bool)
          (st : PPOSpec.LoopState m),
          ((PPOSpec.trainBody useSN useRN useRS sqrtFn gamma 2 maxSteps
              agent envStep st).1.count,
           (PPOSpec.trainBody useSN useRN useRS sqrtFn gamma 2 maxSteps
              agent envStep st).1.updates)
            = PPOSpec.storeAndMaybeUpdate 2 (st.count, st.updates))) :=
  ⟨by decide, buffer_update_cycle 2 5 (by decide)⟩

/-- C2: the stored transition's `dw` flag is true exactly when the
environment returned `done = true` and the episode step counter differs
from `max_episode_steps`; in particular when the episode ends exactly at
the horizon (`episode_steps = max_episode_steps`) the transition is stored
with `dw = false` whatever `done` is. -/
theorem dw_flag_spec {m : ℕ} {Act : Type} (useSN useRN useRS : Bool)
    (sqrtFn : ℚ → ℚ) (gamma : ℚ) (batch maxSteps : ℕ)
    (agent : PPOSpec.AgentIface (Fin m → ℚ) Act)
    (envStep : (Fin m → ℚ) → Act → (Fin m → ℚ) × ℚ × Bool)
    (st : PPOSpec.LoopState m) :
    ((PPOSpec.trainBody useSN useRN useRS sqrtFn gamma batch maxSteps agent
        envStep st).2.1.dw = true
      ↔ ((envStep st.s (agent.choose_action st.s).1).2.2 = true
          ∧ st.episodeSteps + 1 ≠ maxSteps))
    ∧ (PPOSpec.trainBody useSN useRN useRS sqrtFn gamma batch
        (st.episodeSteps + 1) agent envStep st).2.1.dw = false := by
  constructor
  · show PPOSpec.computeDw (envStep st.s (agent.choose_action st.s).1).2.2
      (st.episodeSteps + 1) maxSteps = true ↔ _
    simp [PPOSpec.computeDw]
  · show PPOSpec.computeDw (envStep st.s (agent.choose_action st.s).1).2.2
      (st.episodeSteps + 1) (st.episodeSteps + 1) = false
    simp [PPOSpec.computeDw]

/-- C6: in the reward pipeline of the training loop, when
`use_reward_norm` is enabled (in particular when both flags are enabled)
exactly the reward-normalization branch runs: the reward-scaling state is
returned untouched and the result is the normalized reward; and for every
flag combination the branch taken is determined by
`if use_reward_norm ... elif use_reward_scaling ...`, so at most one of
the two transformations is ever applied to a reward. -/
theorem reward_transform_exclusive (sqrtFn : ℚ → ℚ) (gamma : ℚ)
    (rn : PPOSpec.NormState 1) (rs : PPOSpec.RSState) (r : ℚ) (us : Bool) :
    (PPOSpec.transformReward true us sqrtFn gamma rn rs r
      = ((PPOSpec.normApply sqrtFn rn (fun _ => r) true).1 0,
         (PPOSpec.normApply sqrtFn rn (fun _ => r) true).2, rs, PPOSpec.RTag.rnorm))
    ∧ (∀ un us' : Bool,
        (PPOSpec.transformReward un us' sqrtFn gamma rn rs r).2.2.2
          = (if un then PPOSpec.RTag.rnorm
             else if us' then PPOSpec.RTag.rscale else PPOSpec.RTag.idTag)) := by
  refine ⟨rfl, ?_⟩
  intro un us'
  cases un <;> cases us' <;> rfl

/-- C8: with reward scaling enabled, every episode's scaling activity
starts with `reward_scaling.reset()` before any reward of the episode is
scaled: the reset zeroes only the discounted-return accumulator `R` and
keeps the running count/mean/variance, so the episode's scaling runs from
`R = 0` with the statistics inherited from previous episodes. -/
theorem reward_scaling_reset_each_episode (sqrtFn : ℚ → ℚ) (gamma : ℚ)
    (st : PPOSpec.RSState) (rws : List ℚ) :
    PPOSpec.runEpisodeRS true sqrtFn gamma st rws
      = PPOSpec.scaleRewards sqrtFn gamma
          (PPOSpec.RSState.mk 0 st.count st.mean st.var) rws
    ∧ (PPOSpec.rsReset st).R = 0
    ∧ (PPOSpec.rsReset st).count = st.count
    ∧ (PPOSpec.rsReset st).mean = st.mean
    ∧ (PPOSpec.rsReset st).var = st.var := by
  exact ⟨rfl, rfl, rfl, rfl, rfl⟩

/-- Helper: the evaluation episode loop threads the normalizer state
unchanged, because every `normApply` call in it passes `update = false`. -/
theorem evalEpisodeLoop_normSt {n : ℕ} {E Act : Type} (useSN : Bool)
    (sqrtFn : ℚ → ℚ) (agent : PPOSpec.AgentIface (Fin n → ℚ) Act)
    (envStep : E → Act → (Fin n → ℚ) × ℚ × Bool × E) :
    ∀ (fuel : ℕ) (e : E) (s : Fin n → ℚ) (acc : ℚ) (len : ℕ)
      (ns : PPOSpec.NormState n),
      (PPOSpec.evalEpisodeLoop useSN sqrtFn agent envStep fuel e s acc len
        ns).2.2.1 = ns := by
  intro fuel
  induction fuel with
  | zero => intro e s acc len ns; rfl
  | succ f ih =>
    intro e s acc len ns
    have hsn : ∀ x : Fin n → ℚ,
        (if useSN then PPOSpec.normApply sqrtFn ns x false else (x, ns)).2 = ns := by
      intro x; cases useSN <;> rfl
    simp only [PPOSpec.evalEpisodeLoop]
    split
    · exact hsn _
    · rw [ih]; exact hsn _

/-- Helper: one evaluation episode leaves the normalizer state unchanged. -/
theorem evalEpisode_normSt {n : ℕ} {E Act : Type} (useSN : Bool)
    (sqrtFn : ℚ → ℚ) (agent : PPOSpec.AgentIface (Fin n → ℚ) Act)
    (envReset : E → (Fin n → ℚ) × E)
    (envStep : E → Act → (Fin n → ℚ) × ℚ × Bool × E) (fuel : ℕ) (e : E)
    (ns : PPOSpec.NormState n) :
    (PPOSpec.evalEpisode useSN sqrtFn agent envReset envStep fuel e ns).2.2.1
      = ns := by
  simp only [PPOSpec.evalEpisode]
  rw [evalEpisodeLoop_normSt]
  cases useSN <;> rfl

/-- C5: a complete `evaluate_policy` run returns the state normalizer's
running statistics exactly as it received them — every normalization in it
passes `update = false`, so evaluation observations never enter the
training statistics. -/
theorem evaluate_policy_preserves_norm {n : ℕ} {E Act : Type} (useSN : Bool)
    (sqrtFn : ℚ → ℚ) (agent : PPOSpec.AgentIface (Fin n → ℚ) Act)
    (envReset : E → (Fin n → ℚ) × E)
    (envStep : E → Act → (Fin n → ℚ) × ℚ × Bool × E) (fuel : ℕ) (e : E)
    (ns : PPOSpec.NormState n) :
    (PPOSpec.evaluate_policy useSN sqrtFn agent envReset envStep fuel e
      ns).2.2.1 = ns := by
  simp only [PPOSpec.evaluate_policy]
  rw [evalEpisode_normSt, evalEpisode_normSt, evalEpisode_normSt]

/-- C7 counterexample: with the running best evaluation reward already 5,
an evaluation reward of exactly 5 — not a new (strictly larger) maximum —
still makes the loop write the best-policy snapshot, because the code
tests `reward >= max_reward`. -/
theorem best_snapshot_strict_cex :
    (PPOSpec.evalIntervalBlock
      (PPOSpec.AgentPersist.mk (0 : ℕ) (0 : ℕ) (0 : ℕ) (0 : ℕ)) 50 none
      (5 : ℚ)).1 = some 5
    ∧ (PPOSpec.evalIntervalBlock
      (PPOSpec.AgentPersist.mk (0 : ℕ) (0 : ℕ) (0 : ℕ) (0 : ℕ)) 100
      (some (5 : ℚ)) 5).2.1 = some 0
    ∧ ¬ (5 : ℚ) > 5 := by
  refine ⟨rfl, rfl, by norm_num⟩

/-- C7 amended: at each evaluation interval the loop writes a checkpoint
record containing `total_steps`, the actor parameters, the critic
parameters and both optimizers' state; and the actor-only best-policy
snapshot is written exactly when the evaluation reward is greater than or
equal to the running maximum (so also on ties, not only on strict new
maxima), the running maximum being updated to the reward in that case. -/
theorem best_snapshot_threshold {A C OA OC : Type}
    (ag : PPOSpec.AgentPersist A C OA OC) (ts : ℕ) (maxR : Option ℚ)
    (r : ℚ) :
    (PPOSpec.evalIntervalBlock ag ts maxR r).2.2
      = PPOSpec.Checkpoint.mk ts ag.actorParams ag.criticParams
          ag.optActorState ag.optCriticState
    ∧ (PPOSpec.evalIntervalBlock ag ts maxR r).2.1
      = (match maxR with
         | none => some ag.actorParams
         | some m => if m ≤ r then some ag.actorParams else none)
    ∧ (PPOSpec.evalIntervalBlock ag ts maxR r).1
      = (match maxR with
         | none => some r
         | some m => if m ≤ r then some r else some m) := by
  cases maxR with
  | none => exact ⟨rfl, rfl, rfl⟩
  | some m =>
    by_cases h : m ≤ r
    · simp [PPOSpec.evalIntervalBlock, h]
    · simp [PPOSpec.evalIntervalBlock, h]

/-- C3: for a bounded actor, `stochastic_forward` with `log_probs`
requested returns as log-probability the Gaussian log-density of the
pre-squash sample minus the tanh-Jacobian correction
`log((1 - tanh(sample)^2) + 1e-6)`, summed across the action dimensions
into a single value. -/
theorem bounded_logprob_spec {S X L : Type} {n : ℕ} (nsf : S → Bool → S)
    (cb : S → X) (bf : X → L) (ms ls : L → Fin n → ℝ)
    (fs : Option (Fin n → ℝ)) (state : S) (sample : Fin n → ℝ)
    (det upd : Bool) :
    (PPOSpec.stochastic_forward
      (PPOSpec.StochasticActor.mk nsf cb bf ms ls fs true) state sample det
      upd true).2
      = some (∑ i, (PPOSpec.gaussLogPdf
          ((PPOSpec.get_dist_params
            (PPOSpec.StochasticActor.mk nsf cb bf ms ls fs true) state upd).1 i)
          ((PPOSpec.get_dist_params
            (PPOSpec.StochasticActor.mk nsf cb bf ms ls fs true) state upd).2 i)
          (sample i)
        - Real.log ((1 - Real.tanh (sample i) ^ 2) + 1 / 1000000))) := rfl

/-- C10: with `fixed_std = none`, every component of the standard
deviation produced by `_get_dist_params` is `exp(clamp(log_stds(x), -2, 1))`,
hence lies in `[exp(-2), exp(1)]` and in particular is strictly positive. -/
theorem std_clamp_bounds {S X L : Type} {n : ℕ} (nsf : S → Bool → S)
    (cb : S → X) (bf : X → L) (ms ls : L → Fin n → ℝ) (b : Bool) (state : S)
    (upd : Bool) (i : Fin n) :
    Real.exp (-2) ≤ (PPOSpec.get_dist_params
        (PPOSpec.StochasticActor.mk nsf cb bf ms ls none b) state upd).2 i
    ∧ (PPOSpec.get_dist_params
        (PPOSpec.StochasticActor.mk nsf cb bf ms ls none b) state upd).2 i
      ≤ Real.exp 1
    ∧ 0 < (PPOSpec.get_dist_params
        (PPOSpec.StochasticActor.mk nsf cb bf ms ls none b) state upd).2 i := by
  refine ⟨?_, ?_, ?_⟩
  · exact Real.exp_le_exp.mpr (le_min (by norm_num) (le_max_left _ _))
  · exact Real.exp_le_exp.mpr (min_le_left _ _)
  · exact Real.exp_pos _

/-- C9: with `deterministic = true` and `log_probs = true`,
`stochastic_forward` returns the squashed mean as the action but evaluates
the returned log-probability at the independently drawn Gaussian sample:
two different samples give the same returned action yet different returned
log-probabilities, so the log-probability is not that of the returned
action. -/
theorem deterministic_logprob_mismatch {S X L : Type} {n : ℕ}
    (nsf : S → Bool → S) (cb : S → X) (bf : X → L) (ms ls : L → Fin n → ℝ)
    (fs : Option (Fin n → ℝ)) (b : Bool) (state : S) (sample : Fin n → ℝ)
    (upd : Bool) :
    ((PPOSpec.stochastic_forward
        (PPOSpec.StochasticActor.mk nsf cb bf ms ls fs b) state sample true
        upd true).1
      = if b then (fun i => Real.tanh ((PPOSpec.get_dist_params
            (PPOSpec.StochasticActor.mk nsf cb bf ms ls fs b) state upd).1 i))
        else (PPOSpec.get_dist_params
            (PPOSpec.StochasticActor.mk nsf cb bf ms ls fs b) state upd).1)
    ∧ ((PPOSpec.stochastic_forward
        (PPOSpec.StochasticActor.mk nsf cb bf ms ls fs b) state sample true
        upd true).2
      = some (∑ i, (PPOSpec.gaussLogPdf
          ((PPOSpec.get_dist_params
            (PPOSpec.StochasticActor.mk nsf cb bf ms ls fs b) state upd).1 i)
          ((PPOSpec.get_dist_params
            (PPOSpec.StochasticActor.mk nsf cb bf ms ls fs b) state upd).2 i)
          (sample i)
        - (if b then Real.log ((1 - Real.tanh (sample i) ^ 2) + 1 / 1000000)
           else 0))))
    ∧ (PPOSpec.stochastic_forward PPOSpec.demoActor () (fun _ => (1 : ℝ))
        true false true).1
      = (PPOSpec.stochastic_forward PPOSpec.demoActor () (fun _ => (0 : ℝ))
        true false true).1
    ∧ (PPOSpec.stochastic_forward PPOSpec.demoActor () (fun _ => (1 : ℝ))
        true false true).2
      ≠ (PPOSpec.stochastic_forward PPOSpec.demoActor () (fun _ => (0 : ℝ))
        true false true).2 := by
  have hne : PPOSpec.gaussLogPdf 0 1 1 ≠ PPOSpec.gaussLogPdf 0 1 0 := by
    unfold PPOSpec.gaussLogPdf
    intro h
    rw [sub_left_inj, sub_left_inj] at h
    norm_num at h
  refine ⟨rfl, rfl, rfl, ?_⟩
  intro h
  exact hne (by simpa [PPOSpec.stochastic_forward, PPOSpec.get_dist_params,
    PPOSpec.demoActor, Fin.sum_univ_one] using h)

/-- Helper: the evaluation episode loop reads the agent only through its
`evaluate` method, so changing `choose_action` does not affect it. -/
theorem evalEpisodeLoop_uses_only_evaluate {n : ℕ} {E Act : Type}
    (useSN : Bool) (sqrtFn : ℚ → ℚ) (ca₁ ca₂ : (Fin n → ℚ) → Act × ℚ)
    (ev : (Fin n → ℚ) → Act)
    (envStep : E → Act → (Fin n → ℚ) × ℚ × Bool × E) :
    ∀ (fuel : ℕ) (e : E) (s : Fin n → ℚ) (acc : ℚ) (len : ℕ)
      (ns : PPOSpec.NormState n),
      PPOSpec.evalEpisodeLoop useSN sqrtFn (PPOSpec.AgentIface.mk ca₁ ev)
        envStep fuel e s acc len ns
        = PPOSpec.evalEpisodeLoop useSN sqrtFn (PPOSpec.AgentIface.mk ca₂ ev)
          envStep fuel e s acc len ns := by
  intro fuel
  induction fuel with
  | zero => intro e s acc len ns; rfl
  | succ f ih =>
    intro e s acc len ns
    simp only [PPOSpec.evalEpisodeLoop]
    split
    · rfl
    · exact ih _ _ _ _ _

/-- C4: the deterministic evaluation path of the actor returns the
distribution mean as the action (`tanh(mu)` when bounded, `mu` otherwise);
the training loop's stored transition takes its action from
`agent.choose_action`, and the training-loop body is entirely independent
of the agent's `evaluate` method, while the evaluation rollout loop is
entirely independent of `choose_action` — deterministic evaluation is used
only inside evaluation rollouts. -/
theorem deterministic_eval_and_collection {S X L : Type} {nr m : ℕ}
    {E Act : Type} (nsf : S → Bool → S) (cb : S → X) (bf : X → L)
    (ms ls : L → Fin nr → ℝ) (fs : Option (Fin nr → ℝ)) (b : Bool)
    (state : S) (sample : Fin nr → ℝ) (upd lp : Bool)
    (useSN useRN useRS : Bool) (sqrtFn : ℚ → ℚ) (gamma : ℚ)
    (batch maxSteps : ℕ) (agent : PPOSpec.AgentIface (Fin m → ℚ) Act)
    (envStep : (Fin m → ℚ) → Act → (Fin m → ℚ) × ℚ × Bool)
    (st : PPOSpec.LoopState m) (ca ca₁ ca₂ : (Fin m → ℚ) → Act × ℚ)
    (ev ev₁ ev₂ : (Fin m → ℚ) → Act)
    (envStepE : E → Act → (Fin m → ℚ) × ℚ × Bool × E) (fuel : ℕ) (e : E)
    (s0 : Fin m → ℚ) (acc : ℚ) (len : ℕ) (nst : PPOSpec.NormState m) :
    ((PPOSpec.stochastic_forward
        (PPOSpec.StochasticActor.mk nsf cb bf ms ls fs b) state sample true
        upd lp).1
      = if b then (fun i => Real.tanh ((PPOSpec.get_dist_params
            (PPOSpec.StochasticActor.mk nsf cb bf ms ls fs b) state upd).1 i))
        else (PPOSpec.get_dist_params
            (PPOSpec.StochasticActor.mk nsf cb bf ms ls fs b) state upd).1)
    ∧ ((PPOSpec.trainBody useSN useRN useRS sqrtFn gamma batch maxSteps agent
        envStep st).2.1.a = (agent.choose_action st.s).1)
    ∧ (PPOSpec.trainBody useSN useRN useRS sqrtFn gamma batch maxSteps
        (PPOSpec.AgentIface.mk ca ev₁) envStep st
      = PPOSpec.trainBody useSN useRN useRS sqrtFn gamma batch maxSteps
          (PPOSpec.AgentIface.mk ca ev₂) envStep st)
    ∧ (PPOSpec.evalEpisodeLoop useSN sqrtFn (PPOSpec.AgentIface.mk ca₁ ev)
        envStepE fuel e s0 acc len nst
      = PPOSpec.evalEpisodeLoop useSN sqrtFn (PPOSpec.AgentIface.mk ca₂ ev)
          envStepE fuel e s0 acc len nst) := by
  refine ⟨?_, rfl, rfl,
    evalEpisodeLoop_uses_only_evaluate useSN sqrtFn ca₁ ca₂ ev envStepE fuel
      e s0 acc len nst⟩
  cases lp <;> rfl

end PPOSpec
